import Mathlib

/-!
Shallow embedding of the externally-shared ring-buffer transport from
`crates/sel4-ddf/src/lib.rs`.

The Rust code stores a ring in externally shared memory as a `RingBuffer`
record (`write_index: u32`, `read_index: u32`, `descriptors: [Descriptor; SIZE]`)
and accesses it through `ExternallySharedRingBuffer`.  Here the shared memory
cell is modelled as an explicit state value of type `RingBuffer`; every method
that takes `&mut self` becomes a function from the state to (result, new state).
`u32` values are modelled as `Nat` with explicit reduction modulo `2 ^ 32`
wherever the Rust `Wrapping<u32>` arithmetic wraps.
-/

namespace DDF

/-- `ExternallySharedRingBuffer::SIZE = 512`. -/
def SIZE : Nat := 512

/-- The modulus of 32-bit machine arithmetic. -/
def U32 : Nat := 2 ^ 32

/-- 32-bit wrapping subtraction `a - b` (`Wrapping<u32>` subtraction), for
representable operands `a, b < U32`. -/
def wsub (a b : Nat) : Nat := (a + U32 - b) % U32

/-- `Descriptor` from the source: `encoded_addr: usize`, `len: u32`,
`_padding: [u8; 4]`, `cookie: usize`.  The padding bytes are modelled as a
single `Nat` (they are always zeroed by `Descriptor::new`). -/
structure Descriptor where
  encoded_addr : Nat
  len : Nat
  padding : Nat
  cookie : Nat
  deriving DecidableEq

/-- `Descriptor::new(encoded_addr, len, cookie)`: builds the record with the
padding zeroed.  The source's accessors `encoded_addr()`, `len()`, `cookie()`
are the field projections. -/
def Descriptor.new (encoded_addr : Nat) (len : Nat) (cookie : Nat) : Descriptor :=
  { encoded_addr := encoded_addr, len := len, padding := 0, cookie := cookie }

/-- The shared `RingBuffer` record: `write_index: u32`, `read_index: u32`,
`descriptors: [Descriptor; SIZE]`. -/
structure RingBuffer where
  write_index : Nat
  read_index : Nat
  descriptors : Fin SIZE → Descriptor

/-- The two error values of the crate's `Error` enum. -/
inductive Error where
  | RingIsFull
  | RingIsEmpty
  deriving DecidableEq

/-- `ExternallySharedRingBuffer::has_nonzero_residue(length)`:
`length % Wrapping(512) != Wrapping(0)`. -/
def has_nonzero_residue (length : Nat) : Bool :=
  length % SIZE != 0

/-- `is_empty()`: `has_nonzero_residue(write_index - read_index)` (wrapping
subtraction, NO negation in the source). -/
def RingBuffer.is_empty (rb : RingBuffer) : Bool :=
  has_nonzero_residue (wsub rb.write_index rb.read_index)

/-- `is_full()`: `has_nonzero_residue(write_index - read_index + 1)` (wrapping
arithmetic, NO negation in the source). -/
def RingBuffer.is_full (rb : RingBuffer) : Bool :=
  has_nonzero_residue ((wsub rb.write_index rb.read_index + 1) % U32)

/-- The slot selected by `ExternallySharedRingBuffer::descriptor(index)`:
`usize::try_from(index.0).unwrap() % Self::SIZE`, packaged with the proof that
it is in bounds for the `descriptors` array. -/
def descriptorSlot (index : Nat) : Fin SIZE :=
  ⟨index % SIZE, Nat.mod_lt _ (by decide)⟩

/-- `initialize()`: zero both indices, leave the descriptor array as it is.
(The source method is named `initialize`.) -/
def RingBuffer.initRing (rb : RingBuffer) : RingBuffer :=
  { rb with write_index := 0, read_index := 0 }

/-- `enqueue(&mut self, desc) -> Result<(), Error>`: fail with `RingIsFull`
when `is_full()`, otherwise write `desc` wholesale into the slot selected from
the current `write_index` and advance `write_index` by one (wrapping).  The
`&mut self` receiver is made explicit: the function returns the result paired
with the state after the call. -/
def RingBuffer.enqueue (rb : RingBuffer) (desc : Descriptor) :
    Except Error Unit × RingBuffer :=
  if rb.is_full then
    (Except.error Error.RingIsFull, rb)
  else
    let index := rb.write_index
    let rb1 : RingBuffer :=
      { rb with descriptors := Function.update rb.descriptors (descriptorSlot index) desc }
    (Except.ok (), { rb1 with write_index := (index + 1) % U32 })

/-- `dequeue(&mut self) -> Result<Descriptor, Error>`: fail with `RingIsEmpty`
when `is_empty()`, otherwise read the descriptor in the slot selected from the
current `read_index` and advance `read_index` by one (wrapping). -/
def RingBuffer.dequeue (rb : RingBuffer) : Except Error Descriptor × RingBuffer :=
  if rb.is_empty then
    (Except.error Error.RingIsEmpty, rb)
  else
    let index := rb.read_index
    let desc := rb.descriptors (descriptorSlot index)
    (Except.ok desc, { rb with read_index := (index + 1) % U32 })

/-- `RingBuffers<F>`: a free ring, a used ring, and a stored notifier value of
an arbitrary type `F`. -/
structure RingBuffers (F : Type) where
  free : RingBuffer
  used : RingBuffer
  notify : F

/-- `RingBuffers::new(free, used, notify, initialize)`: store the three values
and, when the flag (source parameter `initialize`) is set, zero both rings'
indices.  `new` is polymorphic in `F` with no function bound, so it cannot
apply the notifier; it only stores it. -/
def RingBuffers.new {F : Type} (free used : RingBuffer) (notify : F)
    (doInit : Bool) : RingBuffers F :=
  if doInit then
    { free := free.initRing, used := used.initRing, notify := notify }
  else
    { free := free, used := used, notify := notify }

/-- `usize::try_from(n)` applied to a `u32` value `n`, on a target whose
`usize` is `bits` bits wide: succeeds exactly when the value fits. -/
def usizeTryFromU32 (bits : Nat) (n : Nat) : Option Nat :=
  if n < 2 ^ bits then some n else none

/-- `u32::try_from(n)` applied to a `usize` value `n`: succeeds exactly when
the value fits in 32 bits. -/
def u32TryFromUsize (n : Nat) : Option Nat :=
  if n < U32 then some n else none

/-- The slot computation of `descriptor(index)` with the source's
`usize::try_from(index.0).unwrap()` conversion made explicit:
`none` models the panic of the `unwrap`. -/
def checkedLinearIndex (bits : Nat) (index : Nat) : Option Nat :=
  (usizeTryFromU32 bits index).map (fun i => i % SIZE)

/-- C1: the claim states that a freshly initialized ring accepts exactly
`SIZE - 1 = 511` enqueues before failing with `RingIsFull`.  The code refutes
this: with `write_index = read_index = 0` the check `is_full()` computes
`has_nonzero_residue(0 - 0 + 1) = (1 % 512 != 0) = true`, so the very FIRST
enqueue already fails with `RingIsFull` and leaves the state unchanged. -/
theorem C1_first_enqueue_on_fresh_ring_fails (rb : RingBuffer) (d : Descriptor) :
    ((rb.initRing).enqueue d).1 = Except.error Error.RingIsFull ∧
    ((rb.initRing).enqueue d).2 = rb.initRing := by
  have hfull : (rb.initRing).is_full = true := by
    show has_nonzero_residue ((wsub 0 0 + 1) % U32) = true
    decide
  simp [RingBuffer.enqueue, hfull]

/-- C2: `is_empty()` holds exactly when the 32-bit wrapping difference
`write_index - read_index` has nonzero residue mod `SIZE`, `is_full()` holds
exactly when that difference plus one has nonzero residue mod `SIZE`, and in
particular `is_empty()` is `false` when `write_index = read_index`. -/
theorem C2_occupancy_tests (w r : Nat) (ds : Fin SIZE → Descriptor)
    (hw : w < U32) (hr : r < U32) :
    (RingBuffer.is_empty ⟨w, r, ds⟩ = true ↔ wsub w r % SIZE ≠ 0) ∧
    (RingBuffer.is_full ⟨w, r, ds⟩ = true ↔ (wsub w r + 1) % SIZE ≠ 0) ∧
    RingBuffer.is_empty ⟨w, w, ds⟩ = false := by
  have hdvd : SIZE ∣ U32 := ⟨8388608, by norm_num [SIZE, U32]⟩
  refine ⟨?_, ?_, ?_⟩
  · simp [RingBuffer.is_empty, has_nonzero_residue]
  · simp [RingBuffer.is_full, has_nonzero_residue, Nat.mod_mod_of_dvd _ hdvd]
  · have h0 : wsub w w = 0 := by
      unfold wsub
      have h : w + U32 - w = U32 := by omega
      rw [h, Nat.mod_self]
    simp [RingBuffer.is_empty, has_nonzero_residue, h0]

/-- Witness for C2 at the concrete indices `w = 5`, `r = 3`. -/
theorem C2_occupancy_tests_witness :
    (RingBuffer.is_empty ⟨5, 3, fun _ => Descriptor.new 0 0 0⟩ = true ↔
      wsub 5 3 % SIZE ≠ 0) ∧
    (RingBuffer.is_full ⟨5, 3, fun _ => Descriptor.new 0 0 0⟩ = true ↔
      (wsub 5 3 + 1) % SIZE ≠ 0) ∧
    RingBuffer.is_empty ⟨5, 5, fun _ => Descriptor.new 0 0 0⟩ = false :=
  C2_occupancy_tests 5 3 (fun _ => Descriptor.new 0 0 0) (by decide) (by decide)

/-- C3: the claim states the 32-bit wrapping difference
`write_index - read_index` never exceeds `SIZE` along any sequence of calls
from a freshly initialized ring.  The code refutes it after a single call:
on the fresh ring `is_empty()` is `false`, so `dequeue` succeeds (returning
slot 0) and advances `read_index` to 1, making the wrapping difference
`0 - 1 = 2 ^ 32 - 1 > SIZE`. -/
theorem C3_wrapping_diff_exceeds_size (rb : RingBuffer) :
    ((rb.initRing).dequeue).1 = Except.ok (rb.descriptors (descriptorSlot 0)) ∧
    SIZE < wsub ((rb.initRing).dequeue).2.write_index
      ((rb.initRing).dequeue).2.read_index := by
  have hempty : RingBuffer.is_empty
      { write_index := 0, read_index := 0, descriptors := rb.descriptors } = false := by
    show has_nonzero_residue (wsub 0 0) = false
    decide
  constructor
  · simp [RingBuffer.dequeue, RingBuffer.initRing, hempty]
  · have hw : ((rb.initRing).dequeue).2.write_index = 0 := by
      simp [RingBuffer.dequeue, RingBuffer.initRing, hempty]
    have hr : ((rb.initRing).dequeue).2.read_index = 1 % U32 := by
      simp [RingBuffer.dequeue, RingBuffer.initRing, hempty]
    rw [hw, hr]
    show SIZE < wsub 0 (1 % U32)
    decide

/-- C4: the claim states every successful dequeue returns a previously
enqueued, not-yet-dequeued descriptor.  The code refutes it: on a freshly
initialized ring on which nothing was ever enqueued, `dequeue` succeeds and
returns the stale content of slot 0 (here the junk record `{42, 7, 99}` left
in shared memory). -/
theorem C4_dequeue_yields_never_enqueued_descriptor :
    ((RingBuffer.initRing ⟨3, 5, fun _ => Descriptor.new 42 7 99⟩).dequeue).1 =
      Except.ok (Descriptor.new 42 7 99) := by
  rfl

/-- C5: `enqueue` fails with `RingIsFull` exactly when `is_full()` holds,
`dequeue` fails with `RingIsEmpty` exactly when `is_empty()` holds, no other
error outcome exists (the result is an `if` with a single error branch each),
and a failing call returns the state unchanged. -/
theorem C5_failure_exactness_and_purity (rb : RingBuffer) (d : Descriptor) :
    (rb.enqueue d).1 =
      (if rb.is_full then Except.error Error.RingIsFull else Except.ok ()) ∧
    (rb.dequeue).1 =
      (if rb.is_empty then Except.error Error.RingIsEmpty
        else Except.ok (rb.descriptors (descriptorSlot rb.read_index))) ∧
    (if rb.is_full then (rb.enqueue d).2 = rb else True) ∧
    (if rb.is_empty then (rb.dequeue).2 = rb else True) := by
  by_cases h1 : rb.is_full = true <;> by_cases h2 : rb.is_empty = true <;>
    simp [RingBuffer.enqueue, RingBuffer.dequeue, h1, h2]

/-- C6: a non-failing `enqueue(desc)` returns success, writes `desc` wholesale
into the slot at `write_index % SIZE`, advances `write_index` by exactly one
with 32-bit wraparound, and leaves `read_index` and every other slot
unchanged. -/
theorem C6_enqueue_success_effects (rb : RingBuffer) (d : Descriptor)
    (h : rb.is_full = false) :
    (rb.enqueue d).1 = Except.ok () ∧
    (rb.enqueue d).2.write_index = (rb.write_index + 1) % U32 ∧
    (rb.enqueue d).2.read_index = rb.read_index ∧
    (rb.enqueue d).2.descriptors (descriptorSlot rb.write_index) = d ∧
    ∀ j : Fin SIZE, j ≠ descriptorSlot rb.write_index →
      (rb.enqueue d).2.descriptors j = rb.descriptors j := by
  refine ⟨?_, ?_, ?_, ?_, ?_⟩
  · simp [RingBuffer.enqueue, h]
  · simp [RingBuffer.enqueue, h]
  · simp [RingBuffer.enqueue, h]
  · simp [RingBuffer.enqueue, h]
  · intro j hj
    simp [RingBuffer.enqueue, h, Function.update_noteq hj]

/-- Witness for C6: at `write_index = 511`, `read_index = 0` the ring is not
`is_full()`, and the enqueue succeeds. -/
theorem C6_enqueue_success_effects_witness :
    (RingBuffer.enqueue ⟨511, 0, fun _ => Descriptor.new 0 0 0⟩
      (Descriptor.new 1 2 3)).1 = Except.ok () :=
  (C6_enqueue_success_effects ⟨511, 0, fun _ => Descriptor.new 0 0 0⟩
    (Descriptor.new 1 2 3) (by decide)).1

/-- C7: a non-failing `dequeue()` returns by value the descriptor in the slot
at `read_index % SIZE`, advances `read_index` by exactly one with 32-bit
wraparound, and leaves `write_index` and every slot unchanged. -/
theorem C7_dequeue_success_effects (rb : RingBuffer) (h : rb.is_empty = false) :
    (rb.dequeue).1 = Except.ok (rb.descriptors (descriptorSlot rb.read_index)) ∧
    (rb.dequeue).2.read_index = (rb.read_index + 1) % U32 ∧
    (rb.dequeue).2.write_index = rb.write_index ∧
    ∀ j : Fin SIZE, (rb.dequeue).2.descriptors j = rb.descriptors j := by
  refine ⟨?_, ?_, ?_, fun j => ?_⟩ <;> simp [RingBuffer.dequeue, h]

/-- Witness for C7: at `write_index = read_index = 0` the code's `is_empty()`
is `false`, so the dequeue succeeds. -/
theorem C7_dequeue_success_effects_witness :
    (RingBuffer.dequeue ⟨0, 0, fun _ => Descriptor.new 42 7 99⟩).1 =
      Except.ok (Descriptor.new 42 7 99) :=
  (C7_dequeue_success_effects ⟨0, 0, fun _ => Descriptor.new 42 7 99⟩
    (by decide)).1

/-- C8: a descriptor built by `Descriptor::new(A, L, K)` that is successfully
enqueued (written into the slot at `write_index % SIZE`) and whose slot is
still intact when a later successful dequeue reads that same slot is returned
with `encoded_addr()`, `len()` and `cookie()` equal to `A`, `L`, `K`: the
transport copies the record wholesale and never alters a field. -/
theorem C8_descriptor_roundtrip (A L K : Nat) (s t : RingBuffer)
    (hs : s.is_full = false)
    (hslot : t.descriptors (descriptorSlot s.write_index) =
      (s.enqueue (Descriptor.new A L K)).2.descriptors (descriptorSlot s.write_index))
    (hidx : descriptorSlot t.read_index = descriptorSlot s.write_index)
    (ht : t.is_empty = false) :
    (t.dequeue).1 = Except.ok (Descriptor.new A L K) ∧
    (Descriptor.new A L K).encoded_addr = A ∧
    (Descriptor.new A L K).len = L ∧
    (Descriptor.new A L K).cookie = K := by
  have h1 : (s.enqueue (Descriptor.new A L K)).2.descriptors
      (descriptorSlot s.write_index) = Descriptor.new A L K := by
    simp [RingBuffer.enqueue, hs]
  refine ⟨?_, rfl, rfl, rfl⟩
  rw [show (t.dequeue).1 = Except.ok (t.descriptors (descriptorSlot t.read_index))
    from by simp [RingBuffer.dequeue, ht], hidx, hslot, h1]

/-- Witness for C8: enqueue `{42, 7, 99}` at `write_index = 511` and dequeue
it back from a state reading the same physical slot. -/
theorem C8_descriptor_roundtrip_witness :
    (RingBuffer.dequeue ⟨1023, 511,
      (RingBuffer.enqueue ⟨511, 0, fun _ => Descriptor.new 0 0 0⟩
        (Descriptor.new 42 7 99)).2.descriptors⟩).1 =
      Except.ok (Descriptor.new 42 7 99) :=
  (C8_descriptor_roundtrip 42 7 99 ⟨511, 0, fun _ => Descriptor.new 0 0 0⟩
    ⟨1023, 511,
      (RingBuffer.enqueue ⟨511, 0, fun _ => Descriptor.new 0 0 0⟩
        (Descriptor.new 42 7 99)).2.descriptors⟩
    (by decide) rfl rfl (by decide)).1

/-- C9: `RingBuffers::new` with the flag set zeroes both rings' indices while
keeping their slots; with the flag unset it returns both rings exactly as
given; in both cases the notifier is only stored (the constructor is
polymorphic in the notifier type `F`, with no function bound on `F`, so it
cannot invoke it). -/
theorem C9_new_ring_pair (F : Type) (free used : RingBuffer) (notify : F) :
    (RingBuffers.new free used notify true).free.write_index = 0 ∧
    (RingBuffers.new free used notify true).free.read_index = 0 ∧
    (RingBuffers.new free used notify true).used.write_index = 0 ∧
    (RingBuffers.new free used notify true).used.read_index = 0 ∧
    (∀ j, (RingBuffers.new free used notify true).free.descriptors j =
      free.descriptors j) ∧
    (∀ j, (RingBuffers.new free used notify true).used.descriptors j =
      used.descriptors j) ∧
    RingBuffers.new free used notify false =
      { free := free, used := used, notify := notify } ∧
    (RingBuffers.new free used notify true).notify = notify := by
  simp [RingBuffers.new, RingBuffer.initRing]

/-- C10: for every 32-bit index value the physical slot `index % SIZE` is
strictly below `SIZE` (so the array access in `enqueue`/`dequeue` is in
bounds), `usize::try_from(index)` succeeds on any target whose `usize` is at
least 32 bits, and `u32::try_from(SIZE)` succeeds, so no `unwrap` in
`descriptor()` or `has_nonzero_residue()` can panic. -/
theorem C10_slot_access_safe (bits index : Nat)
    (hbits : 32 ≤ bits) (hindex : index < U32) :
    (descriptorSlot index).val < SIZE ∧
    checkedLinearIndex bits index = some (descriptorSlot index).val ∧
    u32TryFromUsize SIZE = some SIZE := by
  have h : index < 2 ^ bits :=
    lt_of_lt_of_le hindex (Nat.pow_le_pow_right (by norm_num) hbits)
  refine ⟨(descriptorSlot index).isLt, ?_, by decide⟩
  simp [checkedLinearIndex, usizeTryFromU32, h, descriptorSlot]

/-- Witness for C10 on a 64-bit target at index 4096. -/
theorem C10_slot_access_safe_witness :
    (descriptorSlot 4096).val < SIZE ∧
    checkedLinearIndex 64 4096 = some (descriptorSlot 4096).val ∧
    u32TryFromUsize SIZE = some SIZE :=
  C10_slot_access_safe 64 4096 (by norm_num) (by decide)

end DDF
